import Mathlib

/-!
# OSMRoomSearch — verification of `src/app/app.py`

Shallow embedding of the room-search service. The service is a thin HTTP
façade (`handle_find_room`, `handle_rooms`) over a resolution pipeline
(`find_room`) that delegates geometry work (union, centroid, point-in-polygon
join) to an external geometry library and data access to an external OSM
parser. Those collaborators are opaque: geometry operations are a parameter
(`GeoOps`), and the parsed dataset is a list of tagged features queried by
tag filters. All control flow, filtering, message formatting and result
construction of `app.py` itself is embedded faithfully.

Coordinates are modelled as rationals (the source uses floating-point
coordinates only as opaque values that are carried around, never compared).
-/

namespace OSMRoomSearch

/-- Geometry values as produced by the geometry library: points, linestrings
(open ways), polygons (exterior ring plus interior rings/holes) and
multipolygons (a list of polygon parts, each an exterior ring plus holes).
Ring coordinates are `(x, y)` pairs, i.e. `(longitude, latitude)`. -/
inductive Geometry where
  | point (x y : ℚ)
  | linestring (coords : List (ℚ × ℚ))
  | polygon (exterior : List (ℚ × ℚ)) (interiors : List (List (ℚ × ℚ)))
  | multipolygon (parts : List (List (ℚ × ℚ) × List (List (ℚ × ℚ))))
deriving DecidableEq, Repr

/-- `geom_type` attribute of a shapely geometry. -/
def Geometry.geomType : Geometry → String
  | .point _ _ => "Point"
  | .linestring _ => "LineString"
  | .polygon _ _ => "Polygon"
  | .multipolygon _ => "MultiPolygon"

/-- The opaque geometry collaborators used by `app.py`: `shapely`'s
`centroid` (always a point, returned as `(x, y)`), geopandas' `within`
containment predicate, and `shapely.ops.unary_union`. -/
structure GeoOps where
  centroid : Geometry → ℚ × ℚ
  within : Geometry → Geometry → Bool
  unaryUnion : List Geometry → Geometry

/-- One record of the parsed OSM dataset: the tag columns `app.py` reads
(`building`, `indoor`, `ref`, `name`, `level`), the identifier columns
(`id`, `osm_id`) and the geometry. A missing tag is `none`. -/
structure Feature where
  id : ℤ
  osm_id : ℤ
  building : Option String
  indoor : Option String
  ref : Option String
  name : Option String
  level : Option String
  geometry : Geometry
deriving DecidableEq, Repr

/-- Python `str(x)` applied to an optional tag value: a missing value
(`None`) renders as the string `"None"`. -/
def pyStr : Option String → String
  | none => "None"
  | some s => s

/-- Model of Python `str.upper` (per-character ASCII uppercasing, which is
what `.upper()` does on the room identifiers this service handles). -/
def pyUpper (s : String) : String :=
  ⟨s.data.map Char.toUpper⟩

/-- A latitude/longitude node of the response, as built on line 154 of
`app.py` (`{"latitude": coord[1], "longitude": coord[0]}`). -/
structure Coord where
  latitude : ℚ
  longitude : ℚ
deriving DecidableEq, Repr

/-- The RoomMatch dictionary built on lines 145–155 of `app.py`. -/
structure RoomMatch where
  latitude : ℚ
  longitude : ℚ
  osm_id : ℤ
  tag_name : Option String
  tag_ref : Option String
  tag_level : Option String
  nodes : List Coord
deriving DecidableEq, Repr

/-- The return value of `find_room`: either an `{"error": msg}` dictionary
or a RoomMatch dictionary (the Python `'error' in result` test distinguishes
exactly these two shapes). -/
inductive FindRoomResult where
  | error (msg : String)
  | ok (m : RoomMatch)
deriving DecidableEq, Repr

/-- Lines 138–143 of `app.py`: the boundary node extraction. A polygon
contributes its exterior ring, a multipolygon the concatenation of its
parts' exterior rings; every other geometry type contributes nothing. -/
def roomNodes : Geometry → List (ℚ × ℚ)
  | .polygon exterior _ => exterior
  | .multipolygon parts => (parts.map (fun p => p.1)).flatten
  | _ => []

/-- Line 154 of `app.py`: turn `(x, y)` ring coordinates into
latitude/longitude node dictionaries. -/
def toCoords (cs : List (ℚ × ℚ)) : List Coord :=
  cs.map (fun c => ⟨c.2, c.1⟩)

/-- Lines 112–114 of `app.py`: the representative point used for the
spatial join — `g.centroid if g.geom_type in ["Polygon", "MultiPolygon"]
else g`. -/
def reprPoint (ops : GeoOps) (g : Geometry) : Geometry :=
  if ["Polygon", "MultiPolygon"].contains g.geomType then
    Geometry.point (ops.centroid g).1 (ops.centroid g).2
  else g

/-- Lines 145–155 of `app.py`: build the result dictionary for one row of
the joined dataframe (`row.geometry` is the row's original geometry
column; the reported coordinates are its shapely centroid). -/
def mkResult (ops : GeoOps) (f : Feature) : RoomMatch :=
  { latitude := (ops.centroid f.geometry).2
    longitude := (ops.centroid f.geometry).1
    osm_id := f.id
    tag_name := f.name
    tag_ref := f.ref
    tag_level := f.level
    nodes := toCoords (roomNodes f.geometry) }

/-- Lines 82–85 of `app.py`: `osm.get_buildings(custom_filter={"name":
[building_name]})`. Model of the pyrosm collaborator: building-tagged
records whose `name` tag equals the requested name exactly (spec §4.1
Step 1). -/
def get_buildings (osm : List Feature) (building_name : String) : List Feature :=
  osm.filter (fun f => f.building.isSome && f.name == some building_name)

/-- Lines 95–105 of `app.py`: `osm.get_data_by_custom_criteria` with filter
`indoor=room` and `ref`/`name` equal to the identifier, keeping nodes and
ways. Model of the pyrosm collaborator per spec §4.1 Step 3: records with
`indoor=room` and `ref` or `name` equal to the (already normalized)
identifier. -/
def get_room_candidates (osm : List Feature) (identifier : String) : List Feature :=
  osm.filter (fun f =>
    f.indoor == some "room" && (f.ref == some identifier || f.name == some identifier))

/-- Line 91 of `app.py`: the unioned building region. -/
def buildingGeomOf (ops : GeoOps) (osm : List Feature) (building_name : String) : Geometry :=
  ops.unaryUnion ((get_buildings osm building_name).map Feature.geometry)

/-- Lines 112–128 of `app.py`: the inner spatial join — candidates whose
representative point lies within the unioned building region, in candidate
order (geopandas `sjoin` with a single right geometry keeps left-frame
order). -/
def survivorsOf (ops : GeoOps) (osm : List Feature) (building_name identifier : String) :
    List Feature :=
  (get_room_candidates osm identifier).filter
    (fun f => ops.within (reprPoint ops f.geometry) (buildingGeomOf ops osm building_name))

/-- Lines 134–162 of `app.py`: result dictionaries for the survivors, then
the exact-match filter `str(tags.get('ref')) == id or str(tags.get('name'))
== id`. -/
def exactMatchesOf (ops : GeoOps) (osm : List Feature) (building_name identifier : String) :
    List RoomMatch :=
  ((survivorsOf ops osm building_name identifier).map (mkResult ops)).filter
    (fun r => pyStr r.tag_ref == identifier || pyStr r.tag_name == identifier)

/-- Lines 77–167 of `app.py`: the `find_room` pipeline. Stage checks and
error messages are verbatim from the source; `room_identifier` is
uppercased (line 94) before all room-related queries and messages. -/
def find_room (ops : GeoOps) (osm : List Feature) (building_name room_identifier : String) :
    FindRoomResult :=
  if (get_buildings osm building_name).isEmpty then
    .error ("Building '" ++ building_name ++ "' not found")
  else if (get_room_candidates osm (pyUpper room_identifier)).isEmpty then
    .error ("Room '" ++ pyUpper room_identifier ++ "' not found in dataset")
  else if (survivorsOf ops osm building_name (pyUpper room_identifier)).isEmpty then
    .error ("Room '" ++ pyUpper room_identifier ++ "' not found in " ++ building_name)
  else
    match exactMatchesOf ops osm building_name (pyUpper room_identifier) with
    | [] => .error ("Exact match for '" ++ pyUpper room_identifier ++ "' not found")
    | m :: _ => .ok m

/-- An HTTP response body of this service: an error dictionary, a
RoomMatch, or the rooms listing. -/
inductive HttpBody where
  | errorBody (msg : String)
  | matchBody (m : RoomMatch)
deriving DecidableEq, Repr

/-- Lines 51–75 of `app.py`: the `/v1/find-room` handler. `data` is the
parsed JSON body as an association list (`none` when absent/null); Python's
`not data or 'building' not in data or 'room' not in data` guard maps to
the emptiness/key checks. The pipeline call is a parameter so that the
`except Exception` arm (500, `"Server error: "` prefix) can be stated: a
normal run passes `fun b r => .ok (find_room ops osm b r)`. Returns
`(status, body)`. -/
def handle_find_room (pipeline : String → String → Except String FindRoomResult)
    (data : Option (List (String × String))) : Nat × HttpBody :=
  match data with
  | none => (400, .errorBody "Missing required parameters")
  | some d =>
    if d.isEmpty || (d.lookup "building").isNone || (d.lookup "room").isNone then
      (400, .errorBody "Missing required parameters")
    else
      match pipeline ((d.lookup "building").getD "") ((d.lookup "room").getD "") with
      | .error e => (500, .errorBody ("Server error: " ++ e))
      | .ok (.error msg) => (404, .errorBody msg)
      | .ok (.ok m) => (200, .matchBody m)

/-- One entry of the `/v1/rooms` response (lines 181–184 of `app.py`). -/
structure RoomListing where
  osm_id : ℤ
  name : Option String
deriving DecidableEq, Repr

/-- Lines 169–185 of `app.py`: the `/v1/rooms` handler — every record whose
`building` tag is `"university"`, projected to `{osm_id, name}`, always
with status 200. -/
def handle_rooms (osm : List Feature) : Nat × List RoomListing :=
  (200, (osm.filter (fun f => f.building == some "university")).map
    (fun f => { osm_id := f.osm_id, name := f.name }))

/-- JSON values, for the cache-key derivation. Objects are association
lists (Python dicts: keys are distinct). -/
inductive Json where
  | null
  | bool (b : Bool)
  | num (n : ℤ)
  | str (s : String)
  | arr (xs : List Json)
  | obj (fields : List (String × Json))

/-- Python truthiness of a parsed JSON value (`not json_data` on line 38 of
`app.py`): `None`, `False`, `0`, `""`, `[]` and `\x7b\x7d` are falsy. -/
def pyFalsy : Json → Bool
  | .null => true
  | .bool b => !b
  | .num n => n == 0
  | .str s => s == ""
  | .arr xs => xs.isEmpty
  | .obj fs => fs.isEmpty

/-- Key ordering used by `json.dumps(..., sort_keys=True)`: fields sorted
by key. Stated on already-rendered fields `(key, rendered value)`. -/
def fieldLe (p q : String × String) : Prop := p.1 ≤ q.1

instance : DecidableRel fieldLe := fun p q => inferInstanceAs (Decidable (p.1 ≤ q.1))

instance : IsTotal (String × String) fieldLe := ⟨fun p q => le_total p.1 q.1⟩

instance : IsTrans (String × String) fieldLe := ⟨fun _ _ _ h h' => le_trans h h'⟩

/-- Render one sorted field as `"key": value`. -/
def renderField (kv : String × String) : String :=
  "\"" ++ kv.1 ++ "\": " ++ kv.2

mutual
/-- Model of `json.dumps(json_data, sort_keys=True)` (line 41 of `app.py`):
Python's JSON serialization with object keys sorted at every level and
default separators. (String escaping is elided: rendered strings are a
function of the value either way.) -/
def dumps : Json → String
  | .null => "null"
  | .bool true => "true"
  | .bool false => "false"
  | .num n => toString n
  | .str s => "\"" ++ s ++ "\""
  | .arr xs => "[" ++ String.intercalate ", " (dumpsList xs) ++ "]"
  | .obj fs =>
    "\x7b" ++ String.intercalate ", "
      (((dumpsFields fs).insertionSort fieldLe).map renderField) ++ "\x7d"

/-- Render each array element. -/
def dumpsList : List Json → List String
  | [] => []
  | j :: js => dumps j :: dumpsList js

/-- Render each object field's value, keeping its key. -/
def dumpsFields : List (String × Json) → List (String × String)
  | [] => []
  | (k, v) :: fs => (k, dumps v) :: dumpsFields fs
end

/-- Lines 35–48 of `app.py`: `make_request_body_cache_key`. The MD5 hex
digest is an opaque parameter `digest`; `body` is the outcome of
`request.get_json()` (`none` when the body is absent, null, or failed to
parse — the `except` arm and the `None` return collapse to the same path
key). A falsy parsed body also falls back to the bare path (line 38). -/
def make_request_body_cache_key (digest : String → String) (path : String)
    (body : Option Json) : String :=
  match body with
  | none => path
  | some j =>
    if pyFalsy j then path
    else path ++ ":" ++ digest (dumps j)

/-! ## Helper lemmas about ASCII uppercasing -/

theorem char_toNat_ofNat {n : Nat} (h : n < 55296) : (Char.ofNat n).toNat = n := by
  unfold Char.ofNat
  rw [dif_pos (Or.inl h)]
  rfl

theorem char_toUpper_toNat (c : Char) :
    (Char.toUpper c).toNat =
      if 97 ≤ c.toNat ∧ c.toNat ≤ 122 then c.toNat - 32 else c.toNat := by
  unfold Char.toUpper
  show (if c.toNat ≥ 97 ∧ c.toNat ≤ 122 then Char.ofNat (c.toNat - 32) else c).toNat = _
  split
  · rename_i h
    exact char_toNat_ofNat (by omega)
  · rfl

theorem char_toUpper_eq_self (c : Char) (h : ¬(97 ≤ c.toNat ∧ c.toNat ≤ 122)) :
    Char.toUpper c = c := by
  unfold Char.toUpper
  show (if c.toNat ≥ 97 ∧ c.toNat ≤ 122 then Char.ofNat (c.toNat - 32) else c) = c
  rw [if_neg (by omega)]

theorem char_toUpper_idem (c : Char) : Char.toUpper (Char.toUpper c) = Char.toUpper c := by
  by_cases h : 97 ≤ c.toNat ∧ c.toNat ≤ 122
  · apply char_toUpper_eq_self
    rw [char_toUpper_toNat, if_pos h]
    omega
  · rw [char_toUpper_eq_self c h]
    exact char_toUpper_eq_self c h

theorem char_toUpper_ne_o (c : Char) : Char.toUpper c ≠ 'o' := by
  intro hc
  have h1 : (Char.toUpper c).toNat = 111 := by rw [hc]; rfl
  rw [char_toUpper_toNat] at h1
  split at h1 <;> omega

theorem map_toUpper_idem (l : List Char) :
    (l.map Char.toUpper).map Char.toUpper = l.map Char.toUpper := by
  induction l with
  | nil => rfl
  | cons c t ih => simp [char_toUpper_idem, ih]

theorem pyUpper_idem (s : String) : pyUpper (pyUpper s) = pyUpper s :=
  congrArg String.mk (map_toUpper_idem s.data)

theorem pyUpper_ne_None (s : String) : pyUpper s ≠ "None" := by
  intro h
  have hd : s.data.map Char.toUpper = ['N', 'o', 'n', 'e'] := congrArg String.data h
  have h2 : (s.data.map Char.toUpper)[1]? = some 'o' := by rw [hd]; rfl
  rw [List.getElem?_map] at h2
  cases hx : s.data[1]? with
  | none => rw [hx] at h2; simp at h2
  | some c =>
    rw [hx] at h2
    simp only [Option.map_some'] at h2
    exact char_toUpper_ne_o c (Option.some.injEq _ _ ▸ h2)

/-- A `str()`-rendered optional tag equal to an uppercased identifier must
be a present tag with exactly that value (`"None"` is never an uppercased
string, since `'o'` is not in the range of `Char.toUpper`). -/
theorem pyStr_eq_pyUpper {o : Option String} {r : String} (h : pyStr o = pyUpper r) :
    o = some (pyUpper r) := by
  cases o with
  | none => exact absurd h.symm (pyUpper_ne_None r)
  | some s => simpa [pyStr] using h

/-! ## Inversion lemmas for `find_room` -/

/-- A successful `find_room` run returns the head of the exact-match list. -/
theorem find_room_ok_head {ops : GeoOps} {osm : List Feature} {b r : String} {m : RoomMatch}
    (h : find_room ops osm b r = .ok m) :
    ∃ rest, exactMatchesOf ops osm b (pyUpper r) = m :: rest := by
  unfold find_room at h
  split at h
  · exact absurd h (by simp)
  · split at h
    · exact absurd h (by simp)
    · split at h
      · exact absurd h (by simp)
      · split at h
        · exact absurd h (by simp)
        · rename_i hd rest hx
          cases h
          exact ⟨rest, hx⟩

/-- Every member of the exact-match list comes from a dataset feature via
`mkResult` and satisfies the exact tag comparison. -/
theorem mem_exactMatchesOf {ops : GeoOps} {osm : List Feature} {b R : String} {m : RoomMatch}
    (h : m ∈ exactMatchesOf ops osm b R) :
    ∃ f, f ∈ osm ∧ m = mkResult ops f ∧ (pyStr m.tag_ref = R ∨ pyStr m.tag_name = R) := by
  unfold exactMatchesOf at h
  have h1 := List.mem_filter.1 h
  obtain ⟨f, hf, hfm⟩ := List.mem_map.1 h1.1
  have hf1 := (List.mem_filter.1 hf).1
  have hf2 := (List.mem_filter.1 hf1).1
  refine ⟨f, hf2, hfm.symm, ?_⟩
  have := h1.2
  rcases Bool.or_eq_true_iff.1 this with hc | hc
  · exact Or.inl (eq_of_beq hc)
  · exact Or.inr (eq_of_beq hc)

/-! ## Concrete fixtures used by witnesses -/

/-- Trivial geometry collaborator: centroid at the origin, containment
always true, union picks the first geometry. -/
def constOps : GeoOps :=
  { centroid := fun _ => (0, 0)
    within := fun _ _ => true
    unaryUnion := fun gs => gs.headD (Geometry.point 0 0) }

/-- A building feature named `Science Hall`. -/
def demoBuilding : Feature :=
  { id := 1, osm_id := 1, building := some "yes", indoor := none, ref := none,
    name := some "Science Hall", level := none,
    geometry := Geometry.polygon [(0, 0), (10, 0), (10, 10), (0, 10), (0, 0)] [] }

/-- A polygonal room with `ref=A101` on level 1. -/
def demoRoom : Feature :=
  { id := 2, osm_id := 2, building := none, indoor := some "room", ref := some "A101",
    name := none, level := some "1",
    geometry := Geometry.polygon [(1, 1), (2, 1), (2, 2), (1, 1)] [] }

/-- A second room with the same `ref=A101` on level 2 (a point feature). -/
def demoRoom2 : Feature :=
  { id := 3, osm_id := 3, building := none, indoor := some "room", ref := some "A101",
    name := none, level := some "2", geometry := Geometry.point 5 5 }

def demoOsm : List Feature := [demoBuilding, demoRoom]

def demoOsm2 : List Feature := [demoBuilding, demoRoom, demoRoom2]

/-! ## Claim theorems -/

/-- C2: every RoomMatch that `find_room` returns has a `ref` tag or a
`name` tag exactly equal, as a string, to the case-normalized (uppercased)
requested identifier; partial matches are never returned. -/
theorem find_room_exact_tag_match (ops : GeoOps) (osm : List Feature) (b r : String)
    (m : RoomMatch) (h : find_room ops osm b r = .ok m) :
    m.tag_ref = some (pyUpper r) ∨ m.tag_name = some (pyUpper r) := by
  obtain ⟨rest, hx⟩ := find_room_ok_head h
  have hm : m ∈ exactMatchesOf ops osm b (pyUpper r) := hx ▸ List.mem_cons_self _ _
  obtain ⟨f, _, _, hc⟩ := mem_exactMatchesOf hm
  rcases hc with hc | hc
  · exact Or.inl (pyStr_eq_pyUpper hc)
  · exact Or.inr (pyStr_eq_pyUpper hc)

theorem find_room_exact_tag_match_witness :
    (mkResult constOps demoRoom).tag_ref = some (pyUpper "a101") ∨
    (mkResult constOps demoRoom).tag_name = some (pyUpper "a101") :=
  find_room_exact_tag_match constOps demoOsm "Science Hall" "a101"
    (mkResult constOps demoRoom) (by decide)

/-- C6: room-identifier matching is case-insensitive — `find_room b r` and
`find_room b (r.upper())` return the same result, so `"a101"` and `"A101"`
resolve identically. -/
theorem find_room_case_insensitive (ops : GeoOps) (osm : List Feature) (b r : String) :
    find_room ops osm b r = find_room ops osm b (pyUpper r) := by
  simp only [find_room, pyUpper_idem]

/-- C10: every room-related failure message contains the uppercased
identifier (the pipeline uppercases before any room message is built),
while the building-not-found message carries the building name verbatim;
these four shapes are the only error messages `find_room` produces. -/
theorem find_room_error_message_forms (ops : GeoOps) (osm : List Feature) (b r msg : String)
    (h : find_room ops osm b r = .error msg) :
    msg = "Building '" ++ b ++ "' not found" ∨
    msg = "Room '" ++ pyUpper r ++ "' not found in dataset" ∨
    msg = "Room '" ++ pyUpper r ++ "' not found in " ++ b ∨
    msg = "Exact match for '" ++ pyUpper r ++ "' not found" := by
  unfold find_room at h
  split at h
  · cases h
    exact Or.inl rfl
  · split at h
    · cases h
      exact Or.inr (Or.inl rfl)
    · split at h
      · cases h
        exact Or.inr (Or.inr (Or.inl rfl))
      · split at h
        · cases h
          exact Or.inr (Or.inr (Or.inr rfl))
        · exact absurd h (by simp)

theorem find_room_error_message_forms_witness :
    "Room 'A1' not found in dataset" = "Building '" ++ "Science Hall" ++ "' not found" ∨
    "Room 'A1' not found in dataset" = "Room '" ++ pyUpper "a1" ++ "' not found in dataset" ∨
    "Room 'A1' not found in dataset" = "Room '" ++ pyUpper "a1" ++ "' not found in " ++ "Science Hall" ∨
    "Room 'A1' not found in dataset" = "Exact match for '" ++ pyUpper "a1" ++ "' not found" :=
  find_room_error_message_forms constOps [demoBuilding] "Science Hall" "a1"
    "Room 'A1' not found in dataset" (by decide)

/-- C4: the four failure checks run in a fixed order with a distinct
message each — empty building query first, then empty dataset-wide
candidate query, then empty spatial-containment survivor set, then empty
exact-match set. -/
theorem find_room_failure_order (ops : GeoOps) (osm : List Feature) (b r : String) :
    ((get_buildings osm b).isEmpty = true →
        find_room ops osm b r = .error ("Building '" ++ b ++ "' not found")) ∧
    ((get_buildings osm b).isEmpty = false →
      (get_room_candidates osm (pyUpper r)).isEmpty = true →
        find_room ops osm b r = .error ("Room '" ++ pyUpper r ++ "' not found in dataset")) ∧
    ((get_buildings osm b).isEmpty = false →
      (get_room_candidates osm (pyUpper r)).isEmpty = false →
      (survivorsOf ops osm b (pyUpper r)).isEmpty = true →
        find_room ops osm b r = .error ("Room '" ++ pyUpper r ++ "' not found in " ++ b)) ∧
    ((get_buildings osm b).isEmpty = false →
      (get_room_candidates osm (pyUpper r)).isEmpty = false →
      (survivorsOf ops osm b (pyUpper r)).isEmpty = false →
      exactMatchesOf ops osm b (pyUpper r) = [] →
        find_room ops osm b r = .error ("Exact match for '" ++ pyUpper r ++ "' not found")) := by
  refine ⟨fun h1 => ?_, fun h1 h2 => ?_, fun h1 h2 h3 => ?_, fun h1 h2 h3 h4 => ?_⟩
  · simp [find_room, h1]
  · simp [find_room, h1, h2]
  · simp [find_room, h1, h2, h3]
  · simp [find_room, h1, h2, h3, h4]

theorem find_room_failure_order_witness :
    find_room constOps [] "Science Hall" "a101" =
      .error ("Building '" ++ "Science Hall" ++ "' not found") :=
  (find_room_failure_order constOps [] "Science Hall" "a101").1 (by decide)

/-- C8: with the building query nonempty, `find_room` returns the first
element of the exact-match list, which is an order-preserving filter of the
spatial-join survivor list — no secondary sort key is applied. -/
theorem find_room_first_match (ops : GeoOps) (osm : List Feature) (b r : String)
    (m : RoomMatch) (rest : List RoomMatch)
    (hb : (get_buildings osm b).isEmpty = false)
    (hx : exactMatchesOf ops osm b (pyUpper r) = m :: rest) :
    find_room ops osm b r = .ok m := by
  have hs : (survivorsOf ops osm b (pyUpper r)).isEmpty = false := by
    rcases hsv : survivorsOf ops osm b (pyUpper r) with _ | ⟨f, fs⟩
    · rw [exactMatchesOf, hsv] at hx
      simp at hx
    · rfl
  have hc : (get_room_candidates osm (pyUpper r)).isEmpty = false := by
    rcases hcd : get_room_candidates osm (pyUpper r) with _ | ⟨f, fs⟩
    · have : survivorsOf ops osm b (pyUpper r) = [] := by
        rw [survivorsOf, hcd]
        rfl
      rw [this] at hs
      simp at hs
    · rfl
  simp [find_room, hb, hc, hs, hx]

theorem find_room_first_match_witness :
    find_room constOps demoOsm2 "Science Hall" "a101" = .ok (mkResult constOps demoRoom) :=
  find_room_first_match constOps demoOsm2 "Science Hall" "a101"
    (mkResult constOps demoRoom) [mkResult constOps demoRoom2] (by decide) (by decide)

/-- C1: every RoomMatch returned by `find_room` was built from a dataset
feature, and its node list is empty for a point feature, the exterior ring
for a polygon, and the concatenation of the parts' exterior rings, in part
order, for a multipolygon — interior rings are never included. -/
theorem find_room_boundary_nodes (ops : GeoOps) (osm : List Feature) (b r : String)
    (m : RoomMatch) (h : find_room ops osm b r = .ok m) :
    ∃ f, f ∈ osm ∧ m = mkResult ops f ∧
      (∀ x y, f.geometry = .point x y → m.nodes = []) ∧
      (∀ ext holes, f.geometry = .polygon ext holes → m.nodes = toCoords ext) ∧
      (∀ parts, f.geometry = .multipolygon parts →
        m.nodes = toCoords ((parts.map (fun p => p.1)).flatten)) := by
  obtain ⟨rest, hx⟩ := find_room_ok_head h
  have hm : m ∈ exactMatchesOf ops osm b (pyUpper r) := hx ▸ List.mem_cons_self _ _
  obtain ⟨f, hf, hmk, _⟩ := mem_exactMatchesOf hm
  refine ⟨f, hf, hmk, ?_, ?_, ?_⟩
  · intro x y hg
    rw [hmk]
    simp [mkResult, roomNodes, hg, toCoords]
  · intro ext holes hg
    rw [hmk]
    simp [mkResult, roomNodes, hg]
  · intro parts hg
    rw [hmk]
    simp [mkResult, roomNodes, hg]

theorem find_room_boundary_nodes_witness :
    ∃ f, f ∈ demoOsm ∧ mkResult constOps demoRoom = mkResult constOps f ∧
      (∀ x y, f.geometry = .point x y → (mkResult constOps demoRoom).nodes = []) ∧
      (∀ ext holes, f.geometry = .polygon ext holes →
        (mkResult constOps demoRoom).nodes = toCoords ext) ∧
      (∀ parts, f.geometry = .multipolygon parts →
        (mkResult constOps demoRoom).nodes = toCoords ((parts.map (fun p => p.1)).flatten)) :=
  find_room_boundary_nodes constOps demoOsm "Science Hall" "a101"
    (mkResult constOps demoRoom) (by decide)

/-- C3 counterexample: a LineString is not a point, yet the code keeps the
geometry itself as the representative point instead of taking its centroid
(the centroid of a linestring is a point, never the linestring itself). -/
theorem reprPoint_centroid_claim_false :
    (Geometry.linestring [(1, 1), (3, 3)]).geomType ≠ "Point" ∧
    reprPoint constOps (Geometry.linestring [(1, 1), (3, 3)]) ≠
      Geometry.point (constOps.centroid (Geometry.linestring [(1, 1), (3, 3)])).1
        (constOps.centroid (Geometry.linestring [(1, 1), (3, 3)])).2 := by
  constructor
  · decide
  · decide

/-- C3 (amended): the representative point used in the containment join is
the centroid exactly when the geometry is a Polygon or a MultiPolygon; any
other geometry (a point, but also e.g. a linestring) is used as it is. -/
theorem reprPoint_cases (ops : GeoOps) (g : Geometry) :
    (∀ x y, g = .point x y → reprPoint ops g = g) ∧
    (∀ cs, g = .linestring cs → reprPoint ops g = g) ∧
    (∀ ext holes, g = .polygon ext holes →
      reprPoint ops g = .point (ops.centroid g).1 (ops.centroid g).2) ∧
    (∀ parts, g = .multipolygon parts →
      reprPoint ops g = .point (ops.centroid g).1 (ops.centroid g).2) := by
  refine ⟨?_, ?_, ?_, ?_⟩
  · intro x y hg
    subst hg
    simp [reprPoint, Geometry.geomType]
  · intro cs hg
    subst hg
    simp [reprPoint, Geometry.geomType]
  · intro ext holes hg
    subst hg
    simp [reprPoint, Geometry.geomType]
  · intro parts hg
    subst hg
    simp [reprPoint, Geometry.geomType]

theorem reprPoint_cases_witness :
    reprPoint constOps (Geometry.point 2 3) = Geometry.point 2 3 :=
  (reprPoint_cases constOps (Geometry.point 2 3)).1 2 3 rfl

/-- C5: the find-room endpoint returns 400 with the fixed message when the
body is absent or lacks `building` or `room` (whatever else it holds), 404
with the pipeline's error dictionary, 200 with the RoomMatch, and 500 with
a `Server error: `-prefixed message when the pipeline raises. -/
theorem handle_find_room_spec (pipeline : String → String → Except String FindRoomResult)
    (data : Option (List (String × String))) :
    ((data = none ∨ ∃ d, data = some d ∧
        ((d.lookup "building").isNone ∨ (d.lookup "room").isNone)) →
      handle_find_room pipeline data = (400, .errorBody "Missing required parameters")) ∧
    (∀ d b r, data = some d → d.lookup "building" = some b → d.lookup "room" = some r →
      (∀ msg, pipeline b r = .ok (.error msg) →
        handle_find_room pipeline data = (404, .errorBody msg)) ∧
      (∀ m, pipeline b r = .ok (.ok m) →
        handle_find_room pipeline data = (200, .matchBody m)) ∧
      (∀ e, pipeline b r = .error e →
        handle_find_room pipeline data = (500, .errorBody ("Server error: " ++ e)))) := by
  constructor
  · rintro (rfl | ⟨d, rfl, hd⟩)
    · rfl
    · rcases hd with hd | hd <;> simp [handle_find_room, hd]
  · rintro d b r rfl hb hr
    have hne : d.isEmpty = false := by
      cases d
      · simp at hb
      · rfl
    refine ⟨fun msg hp => ?_, fun m hp => ?_, fun e hp => ?_⟩ <;>
      simp [handle_find_room, hne, hb, hr, hp]

theorem handle_find_room_spec_witness :
    handle_find_room (fun _ _ => Except.ok (FindRoomResult.error "nope"))
      (some [("building", "B"), ("room", "R")]) = (404, .errorBody "nope") :=
  ((handle_find_room_spec (fun _ _ => Except.ok (FindRoomResult.error "nope"))
      (some [("building", "B"), ("room", "R")])).2
    [("building", "B"), ("room", "R")] "B" "R" rfl (by decide) (by decide)).1 "nope" rfl

/-- C9: `/v1/rooms` answers 200 with exactly the `{osm_id, name}`
projection of the records whose `building` tag is `university`, in source
order (stated as a fold over the dataset), and an empty list — not an
error — when nothing matches. -/
theorem handle_rooms_spec (osm : List Feature) :
    (handle_rooms osm).1 = 200 ∧
    (handle_rooms osm).2 = osm.foldr
      (fun f acc => if f.building = some "university" then
        ({ osm_id := f.osm_id, name := f.name } : RoomListing) :: acc else acc) [] ∧
    ((∀ f ∈ osm, f.building ≠ some "university") → (handle_rooms osm).2 = []) := by
  refine ⟨rfl, ?_, ?_⟩
  · show (osm.filter _).map _ = _
    induction osm with
    | nil => rfl
    | cons f t ih =>
      by_cases hb : f.building = some "university"
      · simp [List.filter_cons, hb, ih]
      · simp [List.filter_cons, hb, ih]
  · intro hall
    have hnil : osm.filter (fun f => f.building == some "university") = [] := by
      rw [List.filter_eq_nil_iff]
      intro f hf
      simpa using hall f hf
    show ((osm.filter _).map _) = _
    rw [hnil]
    rfl

theorem handle_rooms_spec_witness :
    (handle_rooms [demoRoom]).2 = [] :=
  (handle_rooms_spec [demoRoom]).2.2 (by decide)

/-! ## Cache-key determinism (C7) -/

theorem dumpsFields_eq_map (fs : List (String × Json)) :
    dumpsFields fs = fs.map (fun kv => (kv.1, dumps kv.2)) := by
  induction fs with
  | nil => rfl
  | cons kv t ih =>
    cases kv
    simp [dumpsFields, ih]

theorem dumpsFields_keys (fs : List (String × Json)) :
    (dumpsFields fs).map Prod.fst = fs.map Prod.fst := by
  induction fs with
  | nil => rfl
  | cons kv t ih =>
    cases kv
    simp [dumpsFields, ih]

/-- Two sorted-by-key lists of rendered fields that are permutations of one
another and have pairwise-distinct keys are equal. -/
theorem eq_of_perm_of_sorted_keyLe {l₁ l₂ : List (String × String)}
    (hp : l₁.Perm l₂) (hs₁ : l₁.Sorted fieldLe) (hs₂ : l₂.Sorted fieldLe)
    (hn : (l₁.map Prod.fst).Nodup) : l₁ = l₂ := by
  induction l₁ generalizing l₂ with
  | nil => exact hp.nil_eq
  | cons a t₁ ih =>
    rcases l₂ with _ | ⟨b, t₂⟩
    · exact absurd hp.symm.nil_eq (by simp)
    · simp only [List.map_cons, List.nodup_cons] at hn
      have hab : a = b := by
        have hbmem : b ∈ a :: t₁ := hp.symm.subset (List.mem_cons_self b t₂)
        have hamem : a ∈ b :: t₂ := hp.subset (List.mem_cons_self a t₁)
        rcases List.mem_cons.1 hbmem with h1 | h1
        · exact h1.symm
        rcases List.mem_cons.1 hamem with h2 | h2
        · exact h2
        have hle1 : a.1 ≤ b.1 := (List.sorted_cons.1 hs₁).1 b h1
        have hle2 : b.1 ≤ a.1 := (List.sorted_cons.1 hs₂).1 a h2
        have hkey : a.1 = b.1 := le_antisymm hle1 hle2
        have hmem : a.1 ∈ t₁.map Prod.fst := hkey ▸ List.mem_map_of_mem Prod.fst h1
        exact absurd hmem hn.1
      subst hab
      rw [ih hp.cons_inv (List.sorted_cons.1 hs₁).2 (List.sorted_cons.1 hs₂).2 hn.2]

theorem insertionSort_eq_of_perm_nodupkeys {l₁ l₂ : List (String × String)}
    (hp : l₁.Perm l₂) (hn : (l₁.map Prod.fst).Nodup) :
    l₁.insertionSort fieldLe = l₂.insertionSort fieldLe := by
  refine eq_of_perm_of_sorted_keyLe ?_ (List.sorted_insertionSort fieldLe l₁)
    (List.sorted_insertionSort fieldLe l₂) ?_
  · exact ((List.perm_insertionSort fieldLe l₁).trans hp).trans
      (List.perm_insertionSort fieldLe l₂).symm
  · exact hn.perm ((List.perm_insertionSort fieldLe l₁).map Prod.fst).symm

/-- `dumps` on objects is invariant under reordering of (distinct-keyed)
fields: the fields are sorted by key before rendering. -/
theorem dumps_obj_perm {fs₁ fs₂ : List (String × Json)}
    (hp : fs₁.Perm fs₂) (hn : (fs₁.map Prod.fst).Nodup) :
    dumps (Json.obj fs₁) = dumps (Json.obj fs₂) := by
  have hdp : (dumpsFields fs₁).Perm (dumpsFields fs₂) := by
    rw [dumpsFields_eq_map, dumpsFields_eq_map]
    exact hp.map _
  have hdn : ((dumpsFields fs₁).map Prod.fst).Nodup := by
    rw [dumpsFields_keys]
    exact hn
  show "\x7b" ++ _ ++ "\x7d" = "\x7b" ++ _ ++ "\x7d"
  rw [insertionSort_eq_of_perm_nodupkeys hdp hdn]

/-- C7 counterexample: a present, parseable, but falsy body — the empty
JSON object — yields the bare path, not path + ":" + digest. -/
theorem cache_key_claim_counterexample :
    make_request_body_cache_key (fun s => s) "/v1/find-room" (some (Json.obj [])) =
      "/v1/find-room" ∧
    "/v1/find-room" ≠
      "/v1/find-room" ++ ":" ++ (fun s : String => s) (dumps (Json.obj [])) := by
  constructor
  · rfl
  · decide

/-- C7 (amended): the cache key is the bare path when the body is absent,
unparseable, or parses to a falsy value (empty object or array, null,
false, 0, empty string); otherwise it is the path joined by ":" to the
digest of the keys-sorted serialization, so bodies equal as key/value maps
but ordered differently produce the same key. -/
theorem cache_key_spec (digest : String → String) (path : String) :
    (make_request_body_cache_key digest path none = path) ∧
    (∀ j, pyFalsy j = true → make_request_body_cache_key digest path (some j) = path) ∧
    (∀ j, pyFalsy j = false →
      make_request_body_cache_key digest path (some j) =
        path ++ ":" ++ digest (dumps j)) ∧
    (∀ fs₁ fs₂, fs₁.Perm fs₂ → (fs₁.map Prod.fst).Nodup →
      make_request_body_cache_key digest path (some (.obj fs₁)) =
        make_request_body_cache_key digest path (some (.obj fs₂))) := by
  refine ⟨rfl, fun j hj => ?_, fun j hj => ?_, fun fs₁ fs₂ hp hn => ?_⟩
  · simp [make_request_body_cache_key, hj]
  · simp [make_request_body_cache_key, hj]
  · rcases fs₁ with _ | ⟨kv, t⟩
    · rw [hp.nil_eq.symm]
    · have h1 : pyFalsy (Json.obj (kv :: t)) = false := rfl
      have h2' : pyFalsy (Json.obj fs₂) = false := by
        rcases fs₂ with _ | ⟨kv₂, t₂⟩
        · exact absurd hp.symm.nil_eq (by simp)
        · rfl
      simp only [make_request_body_cache_key, h1, h2', Bool.false_eq_true, if_false]
      rw [dumps_obj_perm hp hn]

theorem cache_key_spec_witness :
    make_request_body_cache_key (fun s => s) "/v1/find-room"
        (some (Json.obj [("room", Json.str "A101"), ("building", Json.str "Science Hall")])) =
      make_request_body_cache_key (fun s => s) "/v1/find-room"
        (some (Json.obj [("building", Json.str "Science Hall"), ("room", Json.str "A101")])) :=
  (cache_key_spec (fun s => s) "/v1/find-room").2.2.2
    [("room", Json.str "A101"), ("building", Json.str "Science Hall")]
    [("building", Json.str "Science Hall"), ("room", Json.str "A101")]
    (List.Perm.swap ("building", Json.str "Science Hall") ("room", Json.str "A101") [])
    (by decide)

end OSMRoomSearch
